import Mathlib

/-
Shallow embedding of the pooled HTTP/1.x client transport of http-rs/http-client:
`src/config.rs` (Config and its builder methods), `src/h1/mod.rs` (H1Client and
its `send` dispatch loop), and `src/h1/tls.rs` (TlsConnection: the deadpool
Manager with `create` and `recycle`).

Modelling conventions:
- the build with a TLS feature enabled is embedded (all claim-cited symbols,
  including `src/h1/tls.rs`, exist only in that build); in that build `send`
  extracts the host before the scheme check, and the scheme check reduces to
  `scheme != "http" && scheme != "https"`;
- I/O effects (TcpStream::connect, set_nodelay, the TLS handshake, deadpool
  Pool::get, async_h1 client::connect, Url::socket_addrs) are environment
  parameters: each is a function giving that operation's outcome, and `send`
  additionally records an event trace of the external operations it performs;
- the `http` and `https` arms of the dispatch loop are structurally identical
  once the pool layer is abstracted by the environment's `acquire`, so the loop
  is embedded once;
- `usize` arithmetic is explicit: `addrs.len() - 1` is embedded both with the
  release-build wrapping semantics (`usizeSub`, modulo 2^64) and, guarded by a
  flag `oc` (overflow checks), with the debug-build semantics where an
  underflowing subtraction aborts;
- panicking constructs (`todo!`, overflow aborts) return through `PanicOr`;
- error values keep the status codes and message strings of the source, with
  the quote characters of the source format string elided from the message
  text of `Error::from_str(400, format!("invalid url scheme ..."))`.
-/

namespace HttpClientH1

/-- Resolved socket address (ip, port), the pooling and failover unit. -/
abbrev SocketAddr := Nat

/-- An identifier for a live connection (TcpStream or TlsStream) produced by a dial. -/
abbrev ConnId := Nat

/-- An identifier standing for an http_types Response returned by the codec. -/
abbrev Response := Nat

/-- A time span, as in std::time::Duration (seconds granularity suffices here). -/
structure Duration where
  secs : Nat
deriving DecidableEq, Repr

/-- An std::io::Error, reduced to its kind and message. -/
structure IoError where
  kind : String
  msg : String
deriving DecidableEq, Repr

/-- An http_types::Error as produced by this transport: either
`Error::from_str(status, msg)`, an io::Error converted via `?`, or an opaque
error coming out of the protocol codec. -/
inductive HError where
  | fromStr (status : Nat) (msg : String)
  | io (e : IoError)
  | codec (n : Nat)
deriving DecidableEq, Repr

/-- Config from src/config.rs: the five settings of the h1 build
(tls_config is an opaque token). -/
structure Config where
  http_keep_alive : Bool
  tcp_no_delay : Bool
  timeout : Option Duration
  max_connections_per_host : Nat
  tls_config : Option Nat
deriving DecidableEq, Repr

/-- Config::new (src/config.rs lines 97-110). -/
def Config.new : Config :=
  { http_keep_alive := true
    tcp_no_delay := false
    timeout := some ⟨60⟩
    max_connections_per_host := 50
    tls_config := none }

/-- Config::set_http_keep_alive (src/config.rs lines 121-124). -/
def Config.set_http_keep_alive (c : Config) (keep_alive : Bool) : Config :=
  { c with http_keep_alive := keep_alive }

/-- Config::set_tcp_no_delay (src/config.rs lines 127-130). -/
def Config.set_tcp_no_delay (c : Config) (no_delay : Bool) : Config :=
  { c with tcp_no_delay := no_delay }

/-- Config::set_timeout (src/config.rs lines 133-136). -/
def Config.set_timeout (c : Config) (t : Option Duration) : Config :=
  { c with timeout := t }

/-- Config::set_max_connections_per_host (src/config.rs lines 139-142):
a plain field assignment, with no assertion or validation. -/
def Config.set_max_connections_per_host (c : Config) (m : Nat) : Config :=
  { c with max_connections_per_host := m }

/-- Config::set_tls_config. -/
def Config.set_tls_config (c : Config) (t : Option Nat) : Config :=
  { c with tls_config := t }

/-- DEFAULT_MAX_CONCURRENT_CONNECTIONS (src/h1/mod.rs line 34). -/
def DEFAULT_MAX_CONCURRENT_CONNECTIONS : Nat := 50

/-- H1Client (src/h1/mod.rs lines 41-48). The two DashMap pool registries are
runtime state, not part of the value: the per-send registry interaction is in
the event trace of `send`, and the registry race itself is modelled separately
by `raceRun` below. -/
structure H1Client where
  max_concurrent_connections : Nat
  config : Option Config
deriving DecidableEq, Repr

/-- H1Client::new (src/h1/mod.rs lines 99-108). -/
def H1Client.new : H1Client :=
  { max_concurrent_connections := DEFAULT_MAX_CONCURRENT_CONNECTIONS, config := none }

/-- H1Client::with_max_connections (src/h1/mod.rs lines 111-120):
stores `max` unconditionally; there is no assertion on `max`. -/
def H1Client.with_max_connections (max : Nat) : H1Client :=
  { max_concurrent_connections := max, config := none }

/-- H1Client::override_config (src/h1/mod.rs lines 124-126). -/
def H1Client.override_config (c : H1Client) (config : Config) : H1Client :=
  { c with config := some config }

/-- Outcome of a Rust computation that may panic. -/
inductive PanicOr (α : Type) where
  | panic (msg : String)
  | value (a : α)
deriving DecidableEq, Repr

/-- H1Client::update_config (src/h1/mod.rs lines 129-131): the body is
`todo!(...)`, which panics for every input with the message below. -/
def H1Client.update_config (_c : H1Client) (_config : Config) : PanicOr H1Client :=
  .panic "not yet implemented: Only update orperties which ahve been changed on the config object."

/-- The From impl for H1Client (src/h1/mod.rs lines 244-256): stores the
config but keeps DEFAULT_MAX_CONCURRENT_CONNECTIONS as the pool bound
(it does not read config.max_connections_per_host). -/
def H1Client.fromConfig (config : Config) : H1Client :=
  { max_concurrent_connections := DEFAULT_MAX_CONCURRENT_CONNECTIONS, config := some config }

/-- The relevant fields of a parsed url::Url: its scheme and `host_str()`. -/
structure Url where
  scheme : String
  host : Option String
deriving DecidableEq, Repr

/-- The relevant fields of an http_types::Request. -/
structure Request where
  url : Url
  headers : List (String × String)
  peer_addr : Option SocketAddr
  local_addr : Option SocketAddr
deriving DecidableEq, Repr

/-- Request::insert_header: sets the header, replacing any existing value
for the same name. -/
def Request.insert_header (req : Request) (name value : String) : Request :=
  { req with headers := (name, value) :: req.headers.filter (fun kv => kv.fst != name) }

/-- External operations `send` performs, in order: one address resolution
(Url::socket_addrs), per-address pool creation (Pool::new with the client's
connection bound) when the registry lacks the address, per-address pool
acquisition (Pool::get), and the hand-off of a connection plus the request to
the protocol codec (async_h1 client::connect). -/
inductive Event where
  | resolved
  | poolCreated (addr : SocketAddr) (maxConns : Nat)
  | acquireAttempt (addr : SocketAddr)
  | codecCall (conn : ConnId) (req : Request)
deriving DecidableEq, Repr

/-- Environment of one `send` call: the outcomes of its external operations.
`resolve` is the result of Url::socket_addrs; `poolExists` says whether the
registry already holds a pool for an address; `acquire` is Pool::get; the
address observers are TcpStream::{peer_addr, local_addr}; `codec` is
async_h1 client::connect. -/
structure SendEnv where
  resolve : Except IoError (List SocketAddr)
  poolExists : SocketAddr → Bool
  acquire : SocketAddr → Except String ConnId
  peer_addr : ConnId → Option SocketAddr
  local_addr : ConnId → Option SocketAddr
  codec : ConnId → Request → Except HError Response

/-- Width of usize on a 64-bit target. -/
def USIZE : Nat := 2 ^ 64

/-- usize subtraction with the release-build wrapping semantics
(two's-complement wrap modulo 2^64), for b ≤ USIZE. -/
def usizeSub (a b : Nat) : Nat := (a + USIZE - b) % USIZE

/-- The candidate-address loop of H1Client::send (src/h1/mod.rs lines 172-234),
embedded once for both scheme arms (identical up to the pool registry used,
which the environment abstracts). For each address: get-or-create the pool
(recorded as a poolCreated event when absent), Pool::get; on acquisition
failure continue to the next address when `idx != max_addrs_idx`, otherwise
surface `Error::from_str(400, e.to_string())`; on success, record peer/local
addresses on the request and return the codec's result directly. An empty
remaining list falls through to `Error::from_str(400, "missing valid address")`
(src/h1/mod.rs lines 236-239). -/
def sendLoop (env : SendEnv) (req : Request) (maxConns : Nat) (maxAddrsIdx : Nat) :
    Nat → List SocketAddr → Except HError Response × List Event
  | _, [] => (.error (.fromStr 400 "missing valid address"), [])
  | idx, addr :: rest =>
    let poolEvs : List Event :=
      if env.poolExists addr then [] else [.poolCreated addr maxConns]
    match env.acquire addr with
    | .error e =>
      if idx = maxAddrsIdx then
        (.error (.fromStr 400 e), poolEvs ++ [.acquireAttempt addr])
      else
        let r := sendLoop env req maxConns maxAddrsIdx (idx + 1) rest
        (r.fst, poolEvs ++ .acquireAttempt addr :: r.snd)
    | .ok conn =>
      let req2 := { req with peer_addr := env.peer_addr conn, local_addr := env.local_addr conn }
      (env.codec conn req2, poolEvs ++ [.acquireAttempt addr, .codecCall conn req2])

/-- H1Client::send (src/h1/mod.rs lines 141-240), TLS-featured build.
Order of the body: insert the "Connection: keep-alive" header (line 142);
extract the host, failing with `Error::from_str(400, "missing hostname")` when
absent (lines 145-150); reject any scheme other than "http"/"https" with the
invalid-scheme error (lines 152-160); resolve addresses via socket_addrs,
propagating its io::Error (lines 162-167); compute `max_addrs_idx =
addrs.len() - 1` in usize (line 171) — `oc` selects debug (overflow checks:
abort when the subtraction underflows) or release (wrap) semantics — then run
the candidate loop. -/
def send (oc : Bool) (client : H1Client) (env : SendEnv) (req0 : Request) :
    PanicOr (Except HError Response × List Event) :=
  let req := req0.insert_header "Connection" "keep-alive"
  match req.url.host with
  | none => .value (.error (.fromStr 400 "missing hostname"), [])
  | some _ =>
    if req.url.scheme ≠ "http" ∧ req.url.scheme ≠ "https" then
      .value (.error (.fromStr 400 ("invalid url scheme " ++ req.url.scheme)), [])
    else
      match env.resolve with
      | .error e => .value (.error (.io e), [.resolved])
      | .ok addrs =>
        if oc ∧ addrs.length = 0 then
          .panic "attempt to subtract with overflow"
        else
          let r := sendLoop env req client.max_concurrent_connections
            (usizeSub addrs.length 1) 0 addrs
          .value (r.fst, .resolved :: r.snd)

/-- Event trace of a send outcome (empty when the call aborted). -/
def eventsOf : PanicOr (Except HError Response × List Event) → List Event
  | .panic _ => []
  | .value r => r.snd

/-- TlsConnection (src/h1/tls.rs lines 26-36): the deadpool Manager for one
https address, holding the hostname, the address and the shared Config. -/
structure TlsConnection where
  host : String
  addr : SocketAddr
  config : Config
deriving DecidableEq, Repr

/-- TlsConnection::new (src/h1/tls.rs lines 33-35). -/
def TlsConnection.new (host : String) (addr : SocketAddr) (config : Config) : TlsConnection :=
  { host := host, addr := addr, config := config }

/-- futures::task::Poll. -/
inductive Poll (α : Type) where
  | ready (a : α)
  | pending
deriving DecidableEq, Repr

/-- Environment for the TlsConnection Manager: outcomes of the dial
(TcpStream::connect), of set_nodelay, of the TLS handshake (`add_tls`, which
reads only `config.tls_config`, src/h1/tls.rs lines 113-159), and of the
single non-blocking read probe (`poll_read` with a noop waker). -/
structure TlsEnv where
  connect : SocketAddr → Except IoError ConnId
  set_nodelay : ConnId → Bool → Except IoError Unit
  add_tls : String → ConnId → Option Nat → Except IoError ConnId
  poll_read : ConnId → Poll (Except IoError Nat)

/-- TlsConnection::create (src/h1/tls.rs lines 77-84): dial the address, apply
tcp_no_delay, run the TLS handshake with the configured tls_config; each step's
error propagates via `?`. No field of the config other than `tcp_no_delay` and
`tls_config` is consulted; in particular no timeout is applied to any step. -/
def TlsConnection.create (m : TlsConnection) (env : TlsEnv) : Except HError ConnId :=
  match env.connect m.addr with
  | .error e => .error (.io e)
  | .ok raw_stream =>
    match env.set_nodelay raw_stream m.config.tcp_no_delay with
    | .error e => .error (.io e)
    | .ok _ =>
      match env.add_tls m.host raw_stream m.config.tls_config with
      | .error e => .error (.io e)
      | .ok tls_stream => .ok tls_stream

/-- The io::Error built by recycle when the probe reads zero bytes
(src/h1/tls.rs lines 101-104). -/
def eofIoError : IoError :=
  { kind := "UnexpectedEof", msg := "connection appeared to be closed (EoF)" }

/-- TlsConnection::recycle (src/h1/tls.rs lines 86-110): re-apply tcp_no_delay
(an error is surfaced, marking the connection unhealthy), then probe with one
non-blocking poll_read: Ready(Err(e)) is unhealthy, Ready(Ok(0)) is unhealthy
(peer closed, EoF), and everything else — Pending, or Ready(Ok(n)) with n > 0
— falls to the wildcard arm and reports healthy. -/
def TlsConnection.recycle (m : TlsConnection) (env : TlsEnv) (conn : ConnId) :
    Except HError Unit :=
  match env.set_nodelay conn m.config.tcp_no_delay with
  | .error e => .error (.io e)
  | .ok _ =>
    match env.poll_read conn with
    | .ready (.error e) => .error (.io e)
    | .ready (.ok 0) => .error (.io eofIoError)
    | _ => .ok ()

/-- Program counter of one task running the registry get-or-create sequence of
H1Client::send (src/h1/mod.rs lines 177-187 / 205-215): look the address up in
the DashMap; when absent, build a Pool (Pool::new) and insert it, then read the
entry back with `get(&addr).unwrap()` and keep that handle. Each DashMap
operation is atomic; the sequence is not. -/
inductive TaskPC where
  | lookup
  | createInsert
  | getHandle
  | finished (handle : Nat)
deriving DecidableEq, Repr

/-- State of two send calls racing on one address's registry entry: the entry
(`registry`, at most one pool is ever stored), the number of pools built so far
(`created`, also the next fresh pool id), and each task's program counter. -/
structure RaceState where
  registry : Option Nat
  created : Nat
  pc0 : TaskPC
  pc1 : TaskPC
deriving DecidableEq, Repr

/-- Initial race state: empty registry, no pool built, both tasks at lookup. -/
def RaceState.init : RaceState :=
  { registry := none, created := 0, pc0 := .lookup, pc1 := .lookup }

/-- One atomic step of a task: lookup takes the stored pool as its handle when
present, else proceeds to create; createInsert builds a fresh pool and stores
it (overwriting any pool inserted meanwhile); getHandle reads the entry back
and keeps whatever pool is stored at that moment. Returns the new registry,
created count, and task pc. -/
def stepTask (registry : Option Nat) (created : Nat) : TaskPC → Option Nat × Nat × TaskPC
  | .lookup =>
    match registry with
    | some p => (registry, created, .finished p)
    | none => (registry, created, .createInsert)
  | .createInsert => (some created, created + 1, .getHandle)
  | .getHandle =>
    match registry with
    | some p => (registry, created, .finished p)
    | none => (registry, created, .finished 0)
  | .finished h => (registry, created, .finished h)

/-- Run one scheduled step: `false` steps task 0, `true` steps task 1. -/
def raceStep (s : RaceState) (t : Bool) : RaceState :=
  if t then
    let r := stepTask s.registry s.created s.pc1
    { registry := r.fst, created := r.snd.fst, pc0 := s.pc0, pc1 := r.snd.snd }
  else
    let r := stepTask s.registry s.created s.pc0
    { registry := r.fst, created := r.snd.fst, pc0 := r.snd.snd, pc1 := s.pc1 }

/-- Run a schedule (an interleaving of the two tasks) from the initial state. -/
def raceRun (sched : List Bool) : RaceState :=
  sched.foldl raceStep RaceState.init

/-! Concrete inputs used to instantiate the theorems below. -/

/-- A well-formed http request with a host, as built by the unit tests. -/
def reqHttp : Request :=
  { url := { scheme := "http", host := some "example.com" }
    headers := [("test", "value")]
    peer_addr := none
    local_addr := none }

/-- A host-less request with an unsupported scheme, as produced by parsing a
url such as mailto:user@example.com (non-special scheme, no authority). -/
def reqMailtoNoHost : Request :=
  { url := { scheme := "mailto", host := none }
    headers := []
    peer_addr := none
    local_addr := none }

/-- Another host-less unsupported-scheme request (scheme gopher). -/
def reqGopherNoHost : Request :=
  { url := { scheme := "gopher", host := none }
    headers := []
    peer_addr := none
    local_addr := none }

/-- An unsupported-scheme request that does have a host (ftp://host/). -/
def reqFtpHost : Request :=
  { url := { scheme := "ftp", host := some "host" }
    headers := []
    peer_addr := none
    local_addr := none }

/-- Environment where the url resolves to one address and everything succeeds. -/
def envResolved1 : SendEnv :=
  { resolve := .ok [1]
    poolExists := fun _ => true
    acquire := fun _ => .ok 1
    peer_addr := fun _ => none
    local_addr := fun _ => none
    codec := fun _ _ => .ok 0 }

/-- Environment where the url resolves to one address whose acquisition fails. -/
def envResolved2 : SendEnv :=
  { resolve := .ok [2]
    poolExists := fun _ => false
    acquire := fun _ => .error "refused"
    peer_addr := fun _ => none
    local_addr := fun _ => none
    codec := fun _ _ => .ok 0 }

/-- Environment where resolution succeeds with an empty candidate list. -/
def envEmptyAddrs : SendEnv :=
  { resolve := .ok []
    poolExists := fun _ => false
    acquire := fun _ => .error "refused"
    peer_addr := fun _ => none
    local_addr := fun _ => none
    codec := fun _ _ => .ok 0 }

/-- Environment with two candidates: acquisition on address 5 fails, address 6
yields connection 9, and the codec then fails with a protocol error. -/
def envFailover : SendEnv :=
  { resolve := .ok [5, 6]
    poolExists := fun _ => false
    acquire := fun a => if a = 5 then .error "connection refused" else .ok 9
    peer_addr := fun _ => some 6
    local_addr := fun _ => some 1
    codec := fun _ _ => .error (.codec 1) }

/-- Environment where acquisition fails on every address. -/
def envAllFail : SendEnv :=
  { envFailover with acquire := fun _ => .error "connection refused" }

/-- TlsConnection environment where dial, nodelay and handshake succeed and the
recycle probe is still pending (peer silent). -/
def tlsEnvStd : TlsEnv :=
  { connect := fun _ => .ok 7
    set_nodelay := fun _ _ => .ok ()
    add_tls := fun _ c _ => .ok c
    poll_read := fun _ => .pending }

/-- Same, but the recycle probe returns 4 bytes of unsolicited data. -/
def tlsEnvData : TlsEnv :=
  { tlsEnvStd with poll_read := fun _ => .ready (.ok 4) }

/-- Same, but the recycle probe reports end of stream (0 bytes read). -/
def tlsEnvEof : TlsEnv :=
  { tlsEnvStd with poll_read := fun _ => .ready (.ok 0) }

/-- Same, but the recycle probe reports a read error. -/
def tlsEnvReadErr : TlsEnv :=
  { tlsEnvStd with poll_read := fun _ => .ready (.error ⟨"Other", "reset"⟩) }

/-- A TlsConnection manager with the default config. -/
def tlsConnStd : TlsConnection := TlsConnection.new "example.com" 443 Config.new

/-- A manager whose config sets a zero connect timeout (every dial exceeds it). -/
def tlsConnTimeoutZero : TlsConnection :=
  TlsConnection.new "example.com" 9 (Config.new.set_timeout (some ⟨0⟩))

/-- A manager whose config sets no connect timeout at all. -/
def tlsConnTimeoutNone : TlsConnection :=
  TlsConnection.new "example.com" 9 (Config.new.set_timeout none)

/-! Theorems. -/

/-- C2 counterexample: the recycle probe returns 4 bytes of unsolicited data,
yet recycle reports the connection healthy (`Ok(())`): the guarded match arm
only catches `Ready(Ok(0))`, so `Ready(Ok(n))` with n > 0 falls to the
wildcard arm. The claim states that a probe returning data makes recycle
report Unhealthy; this input refutes it. -/
theorem C2_counterexample :
    TlsConnection.recycle tlsConnStd tlsEnvData 3 = .ok () := rfl

/-- C2 amended: recycle classifies the probe as follows — a read error is
Unhealthy; a zero-byte read (end of stream) is Unhealthy; a still-pending
probe (peer silent) is healthy; and a probe returning data (n > 0 bytes) is
also treated as healthy, not Unhealthy. -/
theorem C2_recycle_probe_classification (m : TlsConnection) (env : TlsEnv) (conn : ConnId)
    (hnd : env.set_nodelay conn m.config.tcp_no_delay = .ok ()) :
    (∀ e, env.poll_read conn = .ready (.error e) →
      TlsConnection.recycle m env conn = .error (.io e))
    ∧ (env.poll_read conn = .ready (.ok 0) →
      TlsConnection.recycle m env conn = .error (.io eofIoError))
    ∧ (env.poll_read conn = .pending → TlsConnection.recycle m env conn = .ok ())
    ∧ (∀ n, env.poll_read conn = .ready (.ok (n + 1)) →
      TlsConnection.recycle m env conn = .ok ()) := by
  refine ⟨?_, ?_, ?_, ?_⟩
  · intro e he
    simp [TlsConnection.recycle, hnd, he]
  · intro he
    simp [TlsConnection.recycle, hnd, he]
  · intro he
    simp [TlsConnection.recycle, hnd, he]
  · intro n he
    simp [TlsConnection.recycle, hnd, he]

/-- C2 witness: the classification theorem applied at concrete probes — read
error, end of stream, pending, and 4 bytes of data. -/
theorem C2_recycle_probe_classification_witness :
    TlsConnection.recycle tlsConnStd tlsEnvReadErr 3 = .error (.io ⟨"Other", "reset"⟩)
    ∧ TlsConnection.recycle tlsConnStd tlsEnvEof 3 = .error (.io eofIoError)
    ∧ TlsConnection.recycle tlsConnStd tlsEnvStd 3 = .ok ()
    ∧ TlsConnection.recycle tlsConnStd tlsEnvData 3 = .ok () :=
  ⟨(C2_recycle_probe_classification tlsConnStd tlsEnvReadErr 3 rfl).1 ⟨"Other", "reset"⟩ rfl,
   (C2_recycle_probe_classification tlsConnStd tlsEnvEof 3 rfl).2.1 rfl,
   (C2_recycle_probe_classification tlsConnStd tlsEnvStd 3 rfl).2.2.1 rfl,
   (C2_recycle_probe_classification tlsConnStd tlsEnvData 3 rfl).2.2.2 3 rfl⟩

/-- C4 counterexample: with a configured connect timeout of zero, every dial
exceeds the bound, yet create succeeds and behaves exactly as with no timeout
configured: TlsConnection::create applies no timeout to any step, so a dial
exceeding the configured timeout is not failed by this layer. -/
theorem C4_counterexample :
    TlsConnection.create tlsConnTimeoutZero tlsEnvStd = .ok 7
    ∧ TlsConnection.create tlsConnTimeoutZero tlsEnvStd
      = TlsConnection.create tlsConnTimeoutNone tlsEnvStd :=
  ⟨rfl, rfl⟩

/-- C4 amended: Config.timeout is never consulted by the h1 connection
factory: both create (dial + handshake) and recycle are invariant under any
change of the timeout field, so the timeout bounds neither the dial nor the
handshake (nor, a fortiori, pool waiting or codec time — which it indeed does
not bound, as the claim says). -/
theorem C4_timeout_not_consulted (m : TlsConnection) (env : TlsEnv) (t : Option Duration) :
    TlsConnection.create { m with config := { m.config with timeout := t } } env
      = TlsConnection.create m env
    ∧ ∀ conn, TlsConnection.recycle { m with config := { m.config with timeout := t } } env conn
      = TlsConnection.recycle m env conn :=
  ⟨rfl, fun _ => rfl⟩

/-- C7: a maximum of 0 connections per host is accepted silently everywhere —
the Config setter stores 0, H1Client::with_max_connections(0) constructs a
client whose pool bound is 0, and building a client from such a Config also
succeeds (keeping the default pool bound and storing the config). No
constructor or setter rejects or asserts on 0, contradicting Config's own
documentation that the h1 client asserts on 0. -/
theorem C7_zero_max_connections_not_rejected :
    (H1Client.with_max_connections 0).max_concurrent_connections = 0
    ∧ (Config.new.set_max_connections_per_host 0).max_connections_per_host = 0
    ∧ H1Client.fromConfig (Config.new.set_max_connections_per_host 0)
      = { max_concurrent_connections := DEFAULT_MAX_CONCURRENT_CONNECTIONS
          config := some (Config.new.set_max_connections_per_host 0) } :=
  ⟨rfl, rfl, rfl⟩

/-- C8: on a request whose resolution succeeds with an empty candidate list,
`max_addrs_idx = addrs.len() - 1` underflows: under debug overflow checks the
subtraction aborts the call, and under release (wrapping) semantics it wraps
to 2^64 - 1 and send then returns the missing-valid-address error. -/
theorem C8_empty_address_list_underflow :
    send true H1Client.new envEmptyAddrs reqHttp = .panic "attempt to subtract with overflow"
    ∧ send false H1Client.new envEmptyAddrs reqHttp
      = .value (.error (.fromStr 400 "missing valid address"), [.resolved])
    ∧ usizeSub 0 1 = USIZE - 1 := by
  refine ⟨rfl, rfl, ?_⟩
  norm_num [usizeSub, USIZE]

/-- C10: H1Client::update_config is `todo!` — it aborts for every input with
the not-yet-implemented message — while override_config actually replaces the
stored configuration. -/
theorem C10_update_config_panics (c : H1Client) (cfg : Config) :
    H1Client.update_config c cfg
      = .panic "not yet implemented: Only update orperties which ahve been changed on the config object."
    ∧ H1Client.override_config c cfg = { c with config := some cfg }
    ∧ (H1Client.override_config c cfg).config = some cfg :=
  ⟨rfl, rfl, rfl⟩

/-- A finished task is not changed by further scheduling of task 0. -/
theorem raceStep_false_finished {s : RaceState} {h : Nat} (hs : s.pc0 = .finished h) :
    raceStep s false = s := by
  obtain ⟨reg, cr, pc0, pc1⟩ := s
  simp only at hs
  subst hs
  simp [raceStep, stepTask]

/-- A finished task is not changed by further scheduling of task 1. -/
theorem raceStep_true_finished {s : RaceState} {h : Nat} (hs : s.pc1 = .finished h) :
    raceStep s true = s := by
  obtain ⟨reg, cr, pc0, pc1⟩ := s
  simp only at hs
  subst hs
  simp [raceStep, stepTask]

/-- Extra steps of a finished task 0 leave the state unchanged. -/
theorem foldl_false_finished (n : Nat) {s : RaceState} {h : Nat} (hs : s.pc0 = .finished h) :
    List.foldl raceStep s (List.replicate n false) = s := by
  induction n with
  | zero => simp
  | succ k ih => rw [List.replicate_succ, List.foldl_cons, raceStep_false_finished hs, ih]

/-- Extra steps of a finished task 1 leave the state unchanged. -/
theorem foldl_true_finished (n : Nat) {s : RaceState} {h : Nat} (hs : s.pc1 = .finished h) :
    List.foldl raceStep s (List.replicate n true) = s := by
  induction n with
  | zero => simp
  | succ k ih => rw [List.replicate_succ, List.foldl_cons, raceStep_true_finished hs, ih]

/-- C3 counterexample: the registry get-or-create of H1Client::send is a
non-atomic lookup-then-insert, so two sends racing on the first pool for one
address can both miss the lookup and both build and insert a Pool: in this
interleaving two pools are created (`created = 2`), task 0 keeps pool 0 while
task 1 keeps pool 1 — the callers do not converge on a single shared Pool,
refuting the claim. -/
theorem C3_counterexample :
    (raceRun [false, true, false, false, true, true]).created = 2
    ∧ (raceRun [false, true, false, false, true, true]).pc0 = .finished 0
    ∧ (raceRun [false, true, false, false, true, true]).pc1 = .finished 1 := by
  decide

/-- C3 amended: the registry stores at most one Pool per address at any time,
and when the two calls do not race (one task's whole lookup/insert/read
sequence precedes the other's first step), exactly one Pool is created and
both callers hold that single shared Pool; only racing calls may each create
and keep their own Pool (see the counterexample). -/
theorem C3_sequential_single_pool (n m : Nat) :
    raceRun (List.replicate (n + 3) false ++ List.replicate (m + 1) true)
      = { registry := some 0, created := 1, pc0 := .finished 0, pc1 := .finished 0 } := by
  have h1 : List.foldl raceStep RaceState.init (List.replicate (3 + n) false)
      = { registry := some 0, created := 1, pc0 := .finished 0, pc1 := .lookup } := by
    rw [List.replicate_add, List.foldl_append,
      show List.foldl raceStep RaceState.init (List.replicate 3 false)
        = ({ registry := some 0, created := 1, pc0 := .finished 0,
             pc1 := .lookup } : RaceState) from rfl]
    exact foldl_false_finished n rfl
  unfold raceRun
  rw [show n + 3 = 3 + n from Nat.add_comm n 3, List.foldl_append, h1, List.replicate_succ,
    List.foldl_cons]
  rw [show raceStep { registry := some 0, created := 1, pc0 := .finished 0, pc1 := .lookup } true
      = { registry := some 0, created := 1, pc0 := .finished 0, pc1 := .finished 0 } from rfl]
  exact foldl_true_finished m rfl

/-- Wrapping usize subtraction of 1 agrees with Nat subtraction on nonzero
representable lengths. -/
theorem usizeSub_one (n : Nat) (h1 : n ≠ 0) (h2 : n ≤ USIZE) : usizeSub n 1 = n - 1 := by
  have hU : USIZE = 18446744073709551616 := by norm_num [USIZE]
  unfold usizeSub
  rw [hU] at h2 ⊢
  omega

/-- C1: in the candidate loop of H1Client::send, (i) an acquisition failure on
a non-final candidate (idx different from max_addrs_idx) leaves the surfaced
outcome that of the remaining candidates; (ii) an acquisition failure on the
final candidate is surfaced as Error::from_str(400, e); (iii) once a
connection is obtained the codec's result is returned directly, so (iv) a
codec-level error is propagated immediately and never retried on another
address; and (v) after successful validation and resolution, send is exactly
this loop started at index 0 with max_addrs_idx = addrs.len() - 1. -/
theorem C1_send_failover (env : SendEnv) (req req0 : Request) (maxConns maxIdx idx : Nat)
    (addr : SocketAddr) (rest : List SocketAddr) :
    (∀ e, env.acquire addr = .error e → idx ≠ maxIdx →
      (sendLoop env req maxConns maxIdx idx (addr :: rest)).fst
        = (sendLoop env req maxConns maxIdx (idx + 1) rest).fst)
    ∧ (∀ e, env.acquire addr = .error e → idx = maxIdx →
      (sendLoop env req maxConns maxIdx idx (addr :: rest)).fst
        = .error (.fromStr 400 e))
    ∧ (∀ conn, env.acquire addr = .ok conn →
      (sendLoop env req maxConns maxIdx idx (addr :: rest)).fst
        = env.codec conn { req with peer_addr := env.peer_addr conn,
                                    local_addr := env.local_addr conn })
    ∧ (∀ conn ce, env.acquire addr = .ok conn →
      env.codec conn { req with peer_addr := env.peer_addr conn,
                                local_addr := env.local_addr conn } = .error ce →
      (sendLoop env req maxConns maxIdx idx (addr :: rest)).fst = .error ce)
    ∧ (∀ oc client host addrs, req0.url.host = some host →
      (req0.url.scheme = "http" ∨ req0.url.scheme = "https") →
      env.resolve = .ok addrs → addrs.length ≠ 0 → addrs.length ≤ USIZE →
      send oc client env req0
        = .value ((sendLoop env (req0.insert_header "Connection" "keep-alive")
            client.max_concurrent_connections (addrs.length - 1) 0 addrs).fst,
          .resolved :: (sendLoop env (req0.insert_header "Connection" "keep-alive")
            client.max_concurrent_connections (addrs.length - 1) 0 addrs).snd)) := by
  refine ⟨?_, ?_, ?_, ?_, ?_⟩
  · intro e he hidx
    simp [sendLoop, he, hidx]
  · intro e he hidx
    simp [sendLoop, he, hidx]
  · intro conn hc
    simp [sendLoop, hc]
  · intro conn ce hc hcodec
    simp [sendLoop, hc, hcodec]
  · intro oc client host addrs hh hsch hres hlen hle
    obtain ⟨⟨sch, ho⟩, hdrs, pa, la⟩ := req0
    simp only at hh
    subst hh
    have hcond : ¬(sch ≠ "http" ∧ sch ≠ "https") := by
      rcases hsch with h | h <;> simp only at h <;> simp [h]
    simp only [send, Request.insert_header]
    rw [if_neg hcond, hres]
    simp [usizeSub_one addrs.length hlen hle, hlen]

/-- C1 witness: with two candidates where address 5 fails acquisition and
address 6 yields connection 9, the loop on [5, 6] surfaces the outcome of the
[6] tail; a final-candidate failure surfaces that failure; the obtained
connection's codec error is surfaced directly; and send reduces to the loop. -/
theorem C1_send_failover_witness :
    (sendLoop envFailover reqHttp 50 1 0 [5, 6]).fst = (sendLoop envFailover reqHttp 50 1 1 [6]).fst
    ∧ (sendLoop envAllFail reqHttp 50 0 0 [5]).fst = .error (.fromStr 400 "connection refused")
    ∧ (sendLoop envFailover reqHttp 50 1 1 [6]).fst = .error (.codec 1)
    ∧ send false H1Client.new envFailover reqHttp
      = .value ((sendLoop envFailover (reqHttp.insert_header "Connection" "keep-alive")
          50 1 0 [5, 6]).fst,
        .resolved :: (sendLoop envFailover (reqHttp.insert_header "Connection" "keep-alive")
          50 1 0 [5, 6]).snd) := by
  refine ⟨?_, ?_, ?_, ?_⟩
  · exact (C1_send_failover envFailover reqHttp reqHttp 50 1 0 5 [6]).1
      "connection refused" rfl (by decide)
  · exact (C1_send_failover envAllFail reqHttp reqHttp 50 0 0 5 []).2.1
      "connection refused" rfl rfl
  · exact (C1_send_failover envFailover reqHttp reqHttp 50 1 1 6 []).2.2.1 9 rfl
  · exact (C1_send_failover envFailover reqHttp reqHttp 50 1 0 5 []).2.2.2.2
      false H1Client.new "example.com" [5, 6] rfl (Or.inl rfl) rfl (by decide)
      (by norm_num [USIZE])

/-- C5 counterexample: a request whose scheme is unsupported AND whose url
lacks a host fails with the missing-hostname error, not the invalid-scheme
error: in the TLS-featured build send extracts the host (with `?`) before it
checks the scheme, so the claim's order of validation is refuted. -/
theorem C5_counterexample :
    send true H1Client.new envResolved1 reqMailtoNoHost
      = .value (.error (.fromStr 400 "missing hostname"), [])
    ∧ HError.fromStr 400 "missing hostname"
      ≠ HError.fromStr 400 ("invalid url scheme " ++ "mailto") := by
  exact ⟨rfl, by decide⟩

/-- C5 amended: send extracts the host before validating the scheme: a
host-less request fails with the missing-hostname error whatever its scheme,
and the invalid-scheme error is reported exactly for requests that do have a
host and a scheme other than http/https. -/
theorem C5_host_extracted_before_scheme_check (oc : Bool) (client : H1Client) (env : SendEnv)
    (req : Request) :
    (req.url.host = none →
      send oc client env req = .value (.error (.fromStr 400 "missing hostname"), []))
    ∧ (∀ h, req.url.host = some h → req.url.scheme ≠ "http" → req.url.scheme ≠ "https" →
      send oc client env req
        = .value (.error (.fromStr 400 ("invalid url scheme " ++ req.url.scheme)), [])) := by
  obtain ⟨⟨sch, ho⟩, hdrs, pa, la⟩ := req
  constructor
  · intro hh
    simp only at hh
    subst hh
    rfl
  · intro h hh h1 h2
    simp only at hh h1 h2 ⊢
    subst hh
    simp only [send, Request.insert_header]
    rw [if_pos ⟨h1, h2⟩]

/-- C5 witness: the amended theorem applied to a host-less request (missing
hostname surfaced) and to ftp://host/ (invalid scheme surfaced). -/
theorem C5_host_extracted_before_scheme_check_witness :
    send true H1Client.new envResolved1 reqMailtoNoHost
      = .value (.error (.fromStr 400 "missing hostname"), [])
    ∧ send true H1Client.new envResolved1 reqFtpHost
      = .value (.error (.fromStr 400 ("invalid url scheme " ++ "ftp")), []) :=
  ⟨(C5_host_extracted_before_scheme_check true H1Client.new envResolved1 reqMailtoNoHost).1 rfl,
   (C5_host_extracted_before_scheme_check true H1Client.new envResolved1 reqFtpHost).2
     "host" rfl (by decide) (by decide)⟩

/-- C6 counterexample: a request whose scheme is neither http nor https but
whose url lacks a host does not fail with the invalid-scheme error — it fails
with the missing-hostname error — refuting the claim's universal statement
that every unsupported-scheme request fails with the invalid-scheme error. -/
theorem C6_counterexample :
    send true H1Client.new envResolved2 reqGopherNoHost
      = .value (.error (.fromStr 400 "missing hostname"), [])
    ∧ HError.fromStr 400 "missing hostname"
      ≠ HError.fromStr 400 ("invalid url scheme " ++ "gopher") := by
  exact ⟨rfl, by decide⟩

/-- C6 amended: for every request whose scheme is neither http nor https,
send fails before performing any external operation — its event trace is
empty, so no address resolution, no pool interaction and no connection
attempt happen — and the error surfaced is the invalid-scheme error when the
url has a host, and the missing-hostname error when it does not. -/
theorem C6_invalid_scheme_fails_before_resolution (oc : Bool) (client : H1Client) (env : SendEnv)
    (req : Request) (h1 : req.url.scheme ≠ "http") (h2 : req.url.scheme ≠ "https") :
    (∀ h, req.url.host = some h →
      send oc client env req
        = .value (.error (.fromStr 400 ("invalid url scheme " ++ req.url.scheme)), []))
    ∧ (req.url.host = none →
      send oc client env req = .value (.error (.fromStr 400 "missing hostname"), []))
    ∧ eventsOf (send oc client env req) = [] := by
  obtain ⟨⟨sch, ho⟩, hdrs, pa, la⟩ := req
  simp only at h1 h2
  refine ⟨?_, ?_, ?_⟩
  · intro h hh
    simp only at hh ⊢
    subst hh
    simp only [send, Request.insert_header]
    rw [if_pos ⟨h1, h2⟩]
  · intro hh
    simp only at hh
    subst hh
    rfl
  · cases ho with
    | none => rfl
    | some h =>
      simp only [send, Request.insert_header, eventsOf]
      rw [if_pos ⟨h1, h2⟩]

/-- C6 witness: the amended theorem applied to ftp://host/ (fails with the
invalid-scheme error, empty event trace) and to a host-less gopher request
(fails with the missing-hostname error, empty event trace). -/
theorem C6_invalid_scheme_fails_before_resolution_witness :
    send true H1Client.new envResolved2 reqFtpHost
      = .value (.error (.fromStr 400 ("invalid url scheme " ++ "ftp")), [])
    ∧ eventsOf (send true H1Client.new envResolved2 reqFtpHost) = []
    ∧ send true H1Client.new envResolved2 reqGopherNoHost
      = .value (.error (.fromStr 400 "missing hostname"), [])
    ∧ eventsOf (send true H1Client.new envResolved2 reqGopherNoHost) = [] :=
  ⟨(C6_invalid_scheme_fails_before_resolution true H1Client.new envResolved2 reqFtpHost
      (by decide) (by decide)).1 "host" rfl,
   (C6_invalid_scheme_fails_before_resolution true H1Client.new envResolved2 reqFtpHost
      (by decide) (by decide)).2.2,
   (C6_invalid_scheme_fails_before_resolution true H1Client.new envResolved2 reqGopherNoHost
      (by decide) (by decide)).2.1 rfl,
   (C6_invalid_scheme_fails_before_resolution true H1Client.new envResolved2 reqGopherNoHost
      (by decide) (by decide)).2.2⟩

/-- Any request handed to the codec by the candidate loop carries exactly the
headers of the request the loop was started with (the loop only sets the
peer/local address fields). -/
theorem sendLoop_codecCall_headers (env : SendEnv) (req : Request) (mc mi : Nat) :
    ∀ (addrs : List SocketAddr) (idx : Nat) (conn : ConnId) (r : Request),
      Event.codecCall conn r ∈ (sendLoop env req mc mi idx addrs).snd →
      r.headers = req.headers := by
  intro addrs
  induction addrs with
  | nil =>
    intro idx conn r hmem
    simp [sendLoop] at hmem
  | cons a rest ih =>
    intro idx conn r hmem
    cases hacq : env.acquire a with
    | error e =>
      by_cases hidx : idx = mi
      · cases hpe : env.poolExists a <;> simp [sendLoop, hacq, hpe, hidx] at hmem
      · cases hpe : env.poolExists a <;> simp [sendLoop, hacq, hpe, hidx] at hmem <;>
          exact ih _ _ _ hmem
    | ok conn2 =>
      cases hpe : env.poolExists a <;> simp [sendLoop, hacq, hpe] at hmem <;>
        (obtain ⟨h1, hr⟩ := hmem; subst hr; rfl)

/-- C9: send never consults the stored configuration — two clients whose
configs differ in http_keep_alive (indeed, whose configs differ arbitrarily)
produce identical send behavior — and every request that reaches the protocol
codec carries the "Connection: keep-alive" header, inserted unconditionally
at the top of send. -/
theorem C9_keep_alive_forced_and_config_ignored :
    (∀ (oc : Bool) (client : H1Client) (cfg : Config) (b : Bool) (env : SendEnv) (req : Request),
      send oc { client with config := some cfg } env req
        = send oc { client with config := some (cfg.set_http_keep_alive b) } env req)
    ∧ (∀ (oc : Bool) (client : H1Client) (env : SendEnv) (req : Request) (conn : ConnId)
        (r : Request), Event.codecCall conn r ∈ eventsOf (send oc client env req) →
      List.lookup "Connection" r.headers = some "keep-alive") := by
  constructor
  · intro oc client cfg b env req
    rfl
  · intro oc client env req conn r hmem
    obtain ⟨⟨sch, ho⟩, hdrs, pa, la⟩ := req
    cases ho with
    | none => simp [send, eventsOf, Request.insert_header] at hmem
    | some h =>
      by_cases hcond : sch ≠ "http" ∧ sch ≠ "https"
      · simp [send, eventsOf, Request.insert_header, hcond] at hmem
      · cases hres : env.resolve with
        | error e => simp [send, eventsOf, Request.insert_header, hcond, hres] at hmem
        | ok addrs =>
          by_cases hoc : oc = true ∧ addrs = []
          · simp [send, eventsOf, Request.insert_header, hcond, hres, hoc.1, hoc.2] at hmem
          · simp [send, eventsOf, Request.insert_header, hcond, hres, hoc] at hmem
            rw [sendLoop_codecCall_headers _ _ _ _ _ _ _ _ hmem]
            simp [List.lookup]

/-- C9 witness: at a concrete send whose codec is reached, the request seen by
the codec carries Connection: keep-alive, and two clients differing only in
the config's http_keep_alive behave identically. -/
theorem C9_keep_alive_forced_and_config_ignored_witness :
    List.lookup "Connection"
      (Request.mk { scheme := "http", host := some "example.com" }
        [("Connection", "keep-alive"), ("test", "value")] none none).headers = some "keep-alive"
    ∧ send false { H1Client.new with config := some Config.new } envResolved1 reqHttp
      = send false { H1Client.new with config := some (Config.new.set_http_keep_alive false) }
          envResolved1 reqHttp :=
  ⟨C9_keep_alive_forced_and_config_ignored.2 false H1Client.new envResolved1 reqHttp 1
      (Request.mk { scheme := "http", host := some "example.com" }
        [("Connection", "keep-alive"), ("test", "value")] none none) (by decide),
   C9_keep_alive_forced_and_config_ignored.1 false H1Client.new Config.new false
      envResolved1 reqHttp⟩

end HttpClientH1
